import Mathlib

/-!
Verification of the AssetGen request pipeline: filename generation,
request validation, provider dispatch with placeholder fallback,
configuration defaults and the fixed-window rate limiter, shallowly
embedded from the JavaScript sources.
-/

namespace AssetGen

/-! ### Filename generation (assetService.generateFilename) -/

/-- A character matched by the character class `[a-z0-9]` of the slug
regular expressions. -/
def isAlnum (c : Char) : Bool :=
  ('a' ≤ c && c ≤ 'z') || ('0' ≤ c && c ≤ '9')

/-- Worker for `replaceNonAlnumRuns`: the boolean records whether the
previous character belonged to a run of non-`[a-z0-9]` characters that has
already been replaced by one underscore. -/
def replaceRunsGo : Bool → List Char → List Char
  | _, [] => []
  | inRun, c :: cs =>
    if isAlnum c then c :: replaceRunsGo false cs
    else if inRun then replaceRunsGo true cs
    else '_' :: replaceRunsGo true cs

/-- Replace every maximal run of characters outside `[a-z0-9]` by a single
underscore: the JavaScript `.replace(/[^a-z0-9]+/g, '_')`. -/
def replaceNonAlnumRuns (l : List Char) : List Char :=
  replaceRunsGo false l

/-- Remove the first character when it is an underscore. -/
def dropLeadingUnderscore : List Char → List Char
  | [] => []
  | c :: cs => if c = '_' then cs else c :: cs

/-- The JavaScript `.replace(/^_|_$/g, '')`: one leading underscore and one
trailing underscore are removed (for the regular expression with the `g`
flag this removes at most one match at each edge, and removing the leading
match first gives the same result). -/
def stripEdgeUnderscores (l : List Char) : List Char :=
  ((dropLeadingUnderscore l).reverse |> dropLeadingUnderscore).reverse

/-- The slug of a query, as a character list: lower-case, collapse
non-`[a-z0-9]` runs to `_`, strip one edge underscore on each side,
truncate to 50 characters (`assetService.generateFilename`, slug part). -/
def slugList (q : String) : List Char :=
  (stripEdgeUnderscores (replaceNonAlnumRuns (q.data.map Char.toLower))).take 50

/-- The slug of a query, as a string. -/
def slug (q : String) : String :=
  ⟨slugList q⟩

/-- The JavaScript template fragment `${format || 'image'}`: an absent or
empty (falsy) format falls back to the literal `"image"`. -/
def formatOrImage : Option String → String
  | none => "image"
  | some f => if f = "" then "image" else f

/-- Character list of the generated filename:
`${slug}_${format || 'image'}_${uniqueId}.png` with
`uniqueId = uuidv4().substring(0, 8)`; the freshly generated unique
identifier string is passed in as `uuid`. -/
def generateFilenameList (query : String) (format : Option String)
    (uuid : String) : List Char :=
  slugList query ++ '_' :: (formatOrImage format).data
    ++ '_' :: uuid.data.take 8 ++ ".png".data

/-- The generated filename (`assetService.generateFilename`). -/
def generateFilename (query : String) (format : Option String)
    (uuid : String) : String :=
  ⟨generateFilenameList query format uuid⟩

/-- Filename built step by step following the specification text of §4.3:
lower-case the query, replace every maximal run of characters outside
`[a-z0-9]` with a single underscore, strip a single leading and/or
trailing underscore, truncate to at most 50 characters, then append an
underscore, the format (the literal `image` when the format is absent),
an underscore, the first 8 characters of the unique identifier, and
`.png`. -/
def specFilename (query : String) (format : Option String)
    (uuid : String) : String :=
  let step1 := query.data.map Char.toLower
  let step2 := replaceNonAlnumRuns step1
  let step3 := stripEdgeUnderscores step2
  let step4 := step3.take 50
  let fmt := match format with
    | none => "image"
    | some f => f
  ⟨step4 ++ '_' :: fmt.data ++ '_' :: uuid.data.take 8 ++ ".png".data⟩

/-! ### Canonical slugs (claim about re-slugging being a no-op) -/

/-- No two adjacent characters of the list are both underscores. -/
def noAdjacentUnderscores : List Char → Bool
  | a :: b :: rest => !(a == '_' && b == '_') && noAdjacentUnderscores (b :: rest)
  | _ => true

/-- The first character of the list, when there is one, is not an
underscore. -/
def headNotUnderscore : List Char → Bool
  | [] => true
  | c :: _ => c != '_'

/-- A string that is already in the slug's image as described by the
claim: lower-case, made only of `[a-z0-9]` and single (non-adjacent)
underscores, with no leading or trailing underscore, at most 50
characters long. -/
def isCanonicalSlug (s : String) : Bool :=
  s.data.all (fun c => c.toLower == c) &&
  s.data.all (fun c => isAlnum c || c == '_') &&
  noAdjacentUnderscores s.data &&
  headNotUnderscore s.data &&
  headNotUnderscore s.data.reverse &&
  decide (s.data.length ≤ 50)

/-! ### Configuration store (configService) -/

/-- The record held by the configuration service. Fields may be missing
from a parsed configuration file, hence the options; JavaScript
`undefined`/`null` are both mapped to `none`. -/
structure StoredConfig where
  provider : Option String
  apiKey : Option String
  storagePath : Option String
  deriving DecidableEq, Repr

/-- State of the `.assetgen/config.json` file as seen by `loadConfig`:
absent, unreadable-or-invalid JSON (anything that makes reading or
`JSON.parse` throw), or successfully parsed content. -/
inductive ConfigFileState where
  | absent
  | malformed
  | parsed (c : StoredConfig)

/-- The fallback record `loadConfig` installs when the file is absent or
malformed. -/
def fallbackConfig : StoredConfig :=
  { provider := some "openai", apiKey := none,
    storagePath := some "./generated-assets" }

/-- `configService.loadConfig`: parse the file when possible, otherwise
fall back. -/
def loadConfig : ConfigFileState → StoredConfig
  | .absent => fallbackConfig
  | .malformed => fallbackConfig
  | .parsed c => c

/-- `configService.getDefaultProvider`: `this.config?.provider || 'openai'`
(the JavaScript `||` also maps an empty string to the fallback). -/
def getDefaultProvider (cfg : StoredConfig) : String :=
  match cfg.provider with
  | some p => if p = "" then "openai" else p
  | none => "openai"

/-- `configService.getDefaultApiKey`: the configured key when the asked
provider is strictly equal to the configured provider, `null` otherwise. -/
def getDefaultApiKey (cfg : StoredConfig) (provider : String) : Option String :=
  if cfg.provider = some provider then cfg.apiKey else none

/-! ### Request validation (validateGenerateRequest middleware) -/

/-- A decoded JSON value, for fields whose type the validator inspects. -/
inductive JsVal where
  | jbool (b : Bool)
  | jstr (s : String)
  | jnum (n : Int)
  | jnull
  deriving DecidableEq, Repr

/-- The raw decoded request body destructured by the middleware. -/
structure RequestBody where
  query : Option String
  type : Option String
  format : Option String
  style : Option String
  api_key : Option String
  provider : Option String
  transparent : Option JsVal
  deriving DecidableEq, Repr

/-- JavaScript truthiness of an optional string field: absent (`undefined`
or `null`) and the empty string are falsy. -/
def strTruthy : Option String → Bool
  | none => false
  | some s => s != ""

/-- `provider || defaultProvider` as computed inside the validator. -/
def effectiveProvider (cfg : StoredConfig) (b : RequestBody) : String :=
  match b.provider with
  | some p => if p = "" then getDefaultProvider cfg else p
  | none => getDefaultProvider cfg

/-- The distinguishable validation failures, in the order the middleware
can produce them. -/
inductive ValidationError where
  | missingQuery
  | missingType
  | unsupportedType
  | unsupportedFormat
  | missingApiKey
  | unsupportedProvider
  | invalidTransparent
  deriving DecidableEq, Repr

/-- Guard of the format rule:
`format && !['sprite', 'icon', 'component'].includes(format)`. -/
def formatGuardFails : Option String → Bool
  | none => false
  | some s => (s != "") && !(["sprite", "icon", "component"].contains s)

/-- Guard of the provider rule:
`provider && !['openai', 'stability', 'replicate'].includes(provider)`. -/
def providerGuardFails : Option String → Bool
  | none => false
  | some s => (s != "") && !(["openai", "stability", "replicate"].contains s)

/-- Guard of the transparency rule:
`transparent !== undefined && typeof transparent !== 'boolean'`. -/
def transparentGuardFails : Option JsVal → Bool
  | none => false
  | some (.jbool _) => false
  | some _ => true

/-- The validation middleware `validateGenerateRequest`, returning the
failure it responds with, or `none` when it calls `next()`. -/
def validateGenerateRequest (cfg : StoredConfig) (b : RequestBody) :
    Option ValidationError :=
  if !strTruthy b.query then some .missingQuery
  else if !strTruthy b.type then some .missingType
  else if b.type ≠ some "image" then some .unsupportedType
  else if formatGuardFails b.format then some .unsupportedFormat
  else if !strTruthy b.api_key &&
      !strTruthy (getDefaultApiKey cfg (effectiveProvider cfg b)) then
    some .missingApiKey
  else if providerGuardFails b.provider then some .unsupportedProvider
  else if transparentGuardFails b.transparent then some .invalidTransparent
  else none

/-- Rule 1: query present (and truthy). -/
def queryRule (b : RequestBody) : Option ValidationError :=
  if !strTruthy b.query then some .missingQuery else none

/-- Rule 2: type present and equal to `"image"`. -/
def typeRule (b : RequestBody) : Option ValidationError :=
  if !strTruthy b.type then some .missingType
  else if b.type ≠ some "image" then some .unsupportedType
  else none

/-- Rule 3: format, when given, in the allowed enumeration. -/
def formatRule (b : RequestBody) : Option ValidationError :=
  if formatGuardFails b.format then some .unsupportedFormat else none

/-- Rule 4: an api key resolvable from the body or the configured
default for the effective provider. -/
def apiKeyRule (cfg : StoredConfig) (b : RequestBody) : Option ValidationError :=
  if !strTruthy b.api_key &&
      !strTruthy (getDefaultApiKey cfg (effectiveProvider cfg b)) then
    some .missingApiKey
  else none

/-- Rule 5: provider, when given, in the allowed enumeration. -/
def providerRule (b : RequestBody) : Option ValidationError :=
  if providerGuardFails b.provider then some .unsupportedProvider else none

/-- Rule 6: transparent, when given, a boolean. -/
def transparentRule (b : RequestBody) : Option ValidationError :=
  if transparentGuardFails b.transparent then some .invalidTransparent
  else none

/-- The six validation rules in the order fixed by the claim. -/
def ruleChecks (cfg : StoredConfig) (b : RequestBody) :
    List (Option ValidationError) :=
  [queryRule b, typeRule b, formatRule b, apiKeyRule cfg b,
    providerRule b, transparentRule b]

/-- The first failure of a rule list, with no accumulation. -/
def firstFailure : List (Option ValidationError) → Option ValidationError
  | [] => none
  | o :: rest =>
    match o with
    | some e => some e
    | none => firstFailure rest

/-! ### Provider gateway (assetService: generateAsset / generateImage) -/

/-- The distinguishable failures of asset generation, one per `throw`
site of the service. -/
inductive GenError where
  | noApiKey (provider : String)
  | unsupportedAssetType (t : Option String)
  | invalidApiKey
  | providerRateLimited
  | badRequest (detail : String)
  | providerError (status : Nat) (detail : String)
  | transportFailure (msg : String)
  | noImageReturned
  | downloadFailed (msg : String)
  deriving DecidableEq, Repr

/-- Outcome of the outbound OpenAI image-generation call: a body whose
`data` array is a list of image URLs, an HTTP error response carrying
`status` and the optional `data.error.message` detail, or a transport
failure with no response. -/
inductive OpenAIResult where
  | success (urls : List String)
  | httpError (status : Nat) (detail : Option String)
  | noResponse (msg : String)
  deriving DecidableEq, Repr

/-- The network environment a request runs against: the response of the
generation call and the result of downloading any given URL. -/
structure Oracle where
  apiResp : OpenAIResult
  download : String → Except String (List Nat)

/-- Value of one base64 alphabet character. -/
def base64Val (c : Char) : Nat :=
  if 'A' ≤ c ∧ c ≤ 'Z' then c.toNat - 65
  else if 'a' ≤ c ∧ c ≤ 'z' then c.toNat - 97 + 26
  else if '0' ≤ c ∧ c ≤ '9' then c.toNat - 48 + 52
  else if c = '+' then 62
  else if c = '/' then 63
  else 0

/-- Base64 decoding of a character list, four characters (three bytes) at
a time, honouring `=` padding: the semantics of
`Buffer.from(s, 'base64')`. -/
def base64DecodeList : List Char → List Nat
  | a :: b :: c :: d :: rest =>
    let va := base64Val a
    let vb := base64Val b
    let b1 := va * 4 + vb / 16
    if c = '=' then [b1]
    else
      let vc := base64Val c
      let b2 := (vb % 16) * 16 + vc / 4
      if d = '=' then [b1, b2]
      else [b1, b2, (vc % 4) * 64 + base64Val d] ++ base64DecodeList rest
  | _ => []

/-- Base64 decoding of a string. -/
def base64Decode (s : String) : List Nat :=
  base64DecodeList s.data

/-- The base64 payload of the transparent 1×1 placeholder. -/
def transparentPlaceholderB64 : String :=
  "iVBORw0KGgoAAAANSUhEUgAAAAEAAAABCAQAAAC1HAwCAAAAC0lEQVR42mNkYAAAAAYAAjCB0C8AAAAASUVORK5CYII="

/-- The base64 payload of the opaque white 1×1 placeholder. -/
def opaquePlaceholderB64 : String :=
  "iVBORw0KGgoAAAANSUhEUgAAAAEAAAABCAIAAACQd1PeAAAADElEQVQI12P4//8/AAX+Av7czFnnAAAAAElFTkSuQmCC"

/-- `assetService.getPlaceholderImageData`: the bytes of one of the two
hard-coded placeholder buffers. -/
def getPlaceholderImageData (transparent : Bool) : List Nat :=
  if transparent then base64Decode transparentPlaceholderB64
  else base64Decode opaquePlaceholderB64

/-- Whether a byte sequence starts with the PNG signature and declares a
1×1 image in its IHDR chunk (width and height at offsets 16–23). -/
def isPng1x1 (bytes : List Nat) : Bool :=
  bytes.take 8 == [137, 80, 78, 71, 13, 10, 26, 10] &&
  (bytes.drop 16).take 8 == [0, 0, 0, 1, 0, 0, 0, 1]

/-- The metadata template fragment `${style || 'default'}`. -/
def styleOrDefault : Option String → String
  | none => "default"
  | some s => if s = "" then "default" else s

/-- `path.join(config.assetStorage.path, filename)`, without the
normalisation `path.join` applies to dot segments, which none of the
claims depends on. -/
def joinPath (base name : String) : String :=
  base ++ "/" ++ name

/-- The `meta` object of a successful generation. -/
structure GenMeta where
  format : String
  style : String
  dimensions : String
  transparent : Bool
  query : String
  deriving DecidableEq, Repr

/-- The object returned by a successful generation. -/
structure GenResult where
  status : String
  file_path : String
  file_name : String
  meta : GenMeta
  deriving DecidableEq, Repr

/-- Externally visible side effects of a request: an outbound network
call, or bytes written to a file path. -/
inductive Effect where
  | netCall (url : String)
  | fileWrite (path : String) (data : List Nat)
  deriving DecidableEq, Repr

/-- The OpenAI image-generation endpoint. -/
def openaiGenerationsUrl : String :=
  "https://api.openai.com/v1/images/generations"

/-- `assetService.callOpenAIImageAPI`, as a function of the upstream
outcome: a success passes the URL list through; an HTTP error is mapped
by status 401, 429, 400, other; a missing response is wrapped as a
transport failure. -/
def callOpenAIImageAPI (resp : OpenAIResult) : Except GenError (List String) :=
  match resp with
  | .success urls => .ok urls
  | .httpError status detail =>
    if status = 401 then .error .invalidApiKey
    else if status = 429 then .error .providerRateLimited
    else if status = 400 then .error (.badRequest (detail.getD "Unknown error"))
    else .error (.providerError status (detail.getD "Unknown error"))
  | .noResponse msg => .error (.transportFailure msg)

/-- The parameter object `generateImage` receives from `generateAsset`
(after provider and key resolution). -/
structure GenParams where
  query : String
  format : Option String
  style : Option String
  api_key : Option String
  provider : String
  transparent : Bool

/-- The success object assembled at the end of `generateImage`. -/
def mkResult (filePath filename : String) (p : GenParams) : GenResult :=
  { status := "success", file_path := filePath, file_name := filename,
    meta := { format := "png", style := styleOrDefault p.style,
              dimensions := "256x256", transparent := p.transparent,
              query := p.query } }

/-- `assetService.generateImage` (the provider-calling variant): derive
the filename and path, dispatch on the provider — `openai` calls the API,
maps its failures, downloads the first returned URL; every other provider
takes the placeholder bytes — then write the bytes and return the
metadata. The second component lists the side effects in order. -/
def generateImage (storagePath uuid : String) (oracle : Oracle)
    (p : GenParams) : Except GenError GenResult × List Effect :=
  let filename := generateFilename p.query p.format uuid
  let filePath := joinPath storagePath filename
  if p.provider = "openai" then
    match callOpenAIImageAPI oracle.apiResp with
    | .error e => (.error e, [.netCall openaiGenerationsUrl])
    | .ok [] => (.error .noImageReturned, [.netCall openaiGenerationsUrl])
    | .ok (u :: _) =>
      match oracle.download u with
      | .error m =>
        (.error (.downloadFailed m),
          [.netCall openaiGenerationsUrl, .netCall u])
      | .ok bytes =>
        (.ok (mkResult filePath filename p),
          [.netCall openaiGenerationsUrl, .netCall u,
            .fileWrite filePath bytes])
  else
    (.ok (mkResult filePath filename p),
      [.fileWrite filePath (getPlaceholderImageData p.transparent)])

/-- The JavaScript `a || b` for an optional string against a string. -/
def jsOrStr (a : Option String) (b : String) : String :=
  match a with
  | some s => if s = "" then b else s
  | none => b

/-- The JavaScript `a || b` for two optional strings. -/
def jsOrOptStr (a b : Option String) : Option String :=
  if strTruthy a then a else b

/-- `assetService.generateAsset`: resolve provider and key against the
configuration defaults, fail without a truthy key, handle only the
`image` type, and delegate to `generateImage`. -/
def generateAsset (cfg : StoredConfig) (storagePath uuid : String)
    (oracle : Oracle) (query : String)
    (type format style api_key provider : Option String)
    (transparent : Option Bool) : Except GenError GenResult × List Effect :=
  let provider2 := jsOrStr provider (getDefaultProvider cfg)
  let api_key2 := jsOrOptStr api_key (getDefaultApiKey cfg provider2)
  if !strTruthy api_key2 then (.error (.noApiKey provider2), [])
  else if type = some "image" then
    generateImage storagePath uuid oracle
      { query := query, format := format, style := style,
        api_key := api_key2, provider := provider2,
        transparent := transparent.getD true }
  else (.error (.unsupportedAssetType type), [])

/-- The caller-visible outcome of one request. -/
inductive Response where
  | success (r : GenResult)
  | validationFailure (e : ValidationError)
  | gatewayFailure (e : GenError)
  | rateLimited

/-- The validated boolean carried by the transparent field, when it is a
boolean. -/
def transparentVal : Option JsVal → Option Bool
  | some (.jbool b) => some b
  | _ => none

/-- Modelled from the spec: the §4.5 RequestHandler composition of
validator and gateway (the route and controller files wiring the
middleware to `assetService.generateAsset` are not among the sources);
a validation failure is returned without invoking the gateway. -/
def handleGenerate (cfg : StoredConfig) (storagePath uuid : String)
    (oracle : Oracle) (b : RequestBody) : Response × List Effect :=
  match validateGenerateRequest cfg b with
  | some e => (.validationFailure e, [])
  | none =>
    match generateAsset cfg storagePath uuid oracle (b.query.getD "")
        b.type b.format b.style b.api_key b.provider
        (transparentVal b.transparent) with
    | (.ok r, eff) => (.success r, eff)
    | (.error e, eff) => (.gatewayFailure e, eff)

/-- The claim's strict reading of the success metadata style: the
request's style verbatim, `"default"` only when the style is absent. -/
def claimStyle : Option String → String
  | none => "default"
  | some s => s

/-! ### Rate limiter -/

/-- Per-client window state of the fixed-window limiter. -/
structure RateState where
  count : Nat
  windowStart : Nat
  deriving DecidableEq, Repr

/-- Modelled from the spec: one step of the §4.4 fixed-window limiter
(the express-rate-limit package used by the middleware is a dependency,
not part of this repository's sources): reset the window when at least
`W` milliseconds have passed, increment the counter, reject when the
counter exceeds `maxReq`. -/
def rateLimitStep (W maxReq now : Nat) (st : RateState) : Bool × RateState :=
  let st1 := if W ≤ now - st.windowStart then RateState.mk 0 now else st
  let st2 : RateState := RateState.mk (st1.count + 1) st1.windowStart
  (decide (st2.count ≤ maxReq), st2)

/-- The limiter run over a list of request arrival times, returning the
allow/reject decision of each request in order. -/
def processRequests (W maxReq : Nat) : List Nat → RateState → List Bool × RateState
  | [], st => ([], st)
  | t :: ts, st =>
    let step := rateLimitStep W maxReq t st
    let rest := processRequests W maxReq ts step.2
    (step.1 :: rest.1, rest.2)

/-- Modelled from the spec: the full §4.5 pipeline with the rate limiter
mounted before validation, as in the Express middleware chain. -/
def handleRequest (W maxReq now : Nat) (rl : RateState) (cfg : StoredConfig)
    (storagePath uuid : String) (oracle : Oracle) (b : RequestBody) :
    Response × List Effect × RateState :=
  let step := rateLimitStep W maxReq now rl
  if step.1 then
    let hg := handleGenerate cfg storagePath uuid oracle b
    (hg.1, hg.2, step.2)
  else (.rateLimited, [], step.2)

/-! ### Concrete instances used to instantiate the theorems -/

/-- An environment whose generation call returns an empty result list and
whose downloads fail; no theorem instantiated with it depends on a live
network. -/
def trivialOracle : Oracle :=
  Oracle.mk (OpenAIResult.success []) (fun _ => Except.error "offline")

/-- Resolved parameters naming the unimplemented `stability` provider. -/
def stabilityParams : GenParams :=
  GenParams.mk "a cat" (some "sprite") none (some "k") "stability" false

/-- Resolved parameters naming the `openai` provider. -/
def openaiParams : GenParams :=
  GenParams.mk "a cat" none none (some "k") "openai" true

/-- Resolved parameters whose style is the empty string. -/
def emptyStyleParams : GenParams :=
  GenParams.mk "a cat" none (some "") (some "k") "stability" true

/-- A body with no api key and a provider outside the allowed
enumeration. -/
def noKeyBadProviderBody : RequestBody :=
  RequestBody.mk (some "a cat") (some "image") none none none (some "bogus") none

/-- A body naming a provider different from the configured one and
carrying no key of its own. -/
def mismatchBody : RequestBody :=
  RequestBody.mk (some "a cat") (some "image") none none none
    (some "stability") none

/-- A configuration with a key configured for the `openai` provider. -/
def openaiKeyedConfig : StoredConfig :=
  StoredConfig.mk (some "openai") (some "sk-abc") none

/-! ### Theorems -/

/-- C1: for every query, every format in the request data model
(absent or one of the three allowed enum values) and every generated
unique identifier, the code's filename equals the specification's
step-by-step filename, with the steps applied in the stated order. -/
theorem generateFilename_eq_specFilename (query uuid : String)
    (format : Option String)
    (h : format = none ∨ format = some "sprite" ∨ format = some "icon" ∨
      format = some "component") :
    generateFilename query format uuid = specFilename query format uuid := by
  rcases h with h | h | h | h <;> subst h <;> rfl

/-- C1 witness: the theorem instantiated at a concrete query, format and
identifier. -/
theorem generateFilename_eq_specFilename_witness :
    ((some "sprite" : Option String) = none ∨
      (some "sprite" : Option String) = some "sprite" ∨
      (some "sprite" : Option String) = some "icon" ∨
      (some "sprite" : Option String) = some "component") ∧
    generateFilename "A cat" (some "sprite") "123e4567-e89b" =
      specFilename "A cat" (some "sprite") "123e4567-e89b" :=
  ⟨Or.inr (Or.inl rfl),
    generateFilename_eq_specFilename "A cat" "123e4567-e89b" (some "sprite")
      (Or.inr (Or.inl rfl))⟩

theorem map_toLower_id {l : List Char} (h : ∀ c ∈ l, c.toLower = c) :
    l.map Char.toLower = l := by
  induction l with
  | nil => rfl
  | cons c cs ih =>
    simp only [List.map_cons]
    rw [h c (List.mem_cons_self c cs), ih fun x hx => h x (List.mem_cons_of_mem c hx)]

theorem replaceRunsGo_id : ∀ l : List Char,
    (∀ c ∈ l, isAlnum c = true ∨ c = '_') →
    noAdjacentUnderscores l = true →
    replaceRunsGo false l = l ∧
      (headNotUnderscore l = true → replaceRunsGo true l = l)
  | [], _, _ => ⟨rfl, fun _ => rfl⟩
  | c :: cs, hok, hadj => by
    have hok' : ∀ x ∈ cs, isAlnum x = true ∨ x = '_' :=
      fun x hx => hok x (List.mem_cons_of_mem c hx)
    have hadj' : noAdjacentUnderscores cs = true := by
      cases cs with
      | nil => rfl
      | cons d r =>
        simp only [noAdjacentUnderscores, Bool.and_eq_true] at hadj
        exact hadj.2
    have ih := replaceRunsGo_id cs hok' hadj'
    constructor
    · by_cases h : isAlnum c = true
      · simp [replaceRunsGo, h, ih.1]
      · have hc : c = '_' := (hok c (List.mem_cons_self c cs)).resolve_left h
        subst hc
        have hhd : headNotUnderscore cs = true := by
          cases cs with
          | nil => rfl
          | cons d r =>
            simp only [noAdjacentUnderscores, Bool.and_eq_true, Bool.not_eq_true',
              Bool.and_eq_false_iff, beq_eq_false_iff_ne, ne_eq] at hadj
            rcases hadj.1 with h1 | h1
            · exact absurd trivial h1
            · simp [headNotUnderscore, h1]
        simp [replaceRunsGo, h, ih.2 hhd]
    · intro hhd
      have hne : c ≠ '_' := by
        simp only [headNotUnderscore, bne_iff_ne, ne_eq] at hhd
        exact hhd
      have h : isAlnum c = true := (hok c (List.mem_cons_self c cs)).resolve_right hne
      simp [replaceRunsGo, h, ih.1]

theorem dropLeadingUnderscore_id {l : List Char}
    (h : headNotUnderscore l = true) : dropLeadingUnderscore l = l := by
  cases l with
  | nil => rfl
  | cons c cs =>
    simp only [headNotUnderscore, bne_iff_ne, ne_eq] at h
    simp [dropLeadingUnderscore, h]

theorem stripEdgeUnderscores_id {l : List Char}
    (h1 : headNotUnderscore l = true)
    (h2 : headNotUnderscore l.reverse = true) :
    stripEdgeUnderscores l = l := by
  unfold stripEdgeUnderscores
  rw [dropLeadingUnderscore_id h1, dropLeadingUnderscore_id h2,
    List.reverse_reverse]

/-- C7: applying the slug transformation to a string that is already
lower-case, made only of `[a-z0-9]` and single underscores, has no
leading or trailing underscore, and is at most 50 characters long,
returns the string unchanged. -/
theorem slug_canonical_fixed (s : String) (h : isCanonicalSlug s = true) :
    slug s = s := by
  obtain ⟨d⟩ := s
  simp only [isCanonicalSlug, Bool.and_eq_true, List.all_eq_true,
    Bool.or_eq_true, beq_iff_eq, decide_eq_true_eq] at h
  obtain ⟨⟨⟨⟨⟨hlow, hok⟩, hadj⟩, hhd⟩, hrev⟩, hlen⟩ := h
  show String.mk (slugList ⟨d⟩) = ⟨d⟩
  unfold slugList replaceNonAlnumRuns
  rw [show (String.mk d).data = d from rfl] at *
  rw [map_toLower_id hlow, (replaceRunsGo_id d hok hadj).1,
    stripEdgeUnderscores_id hhd hrev, List.take_of_length_le hlen]

/-- C7 witness: the theorem instantiated at a concrete canonical slug. -/
theorem slug_canonical_fixed_witness :
    isCanonicalSlug "abc_12" = true ∧ slug "abc_12" = "abc_12" :=
  ⟨by decide, slug_canonical_fixed "abc_12" (by decide)⟩

/-! ### Filename collisions -/

/-- C8 counterexample: two calls to filename generation with identical
query and format are not always distinct — when the two freshly generated
unique identifiers happen to agree on their first 8 characters (the code
keeps only `uuidv4().substring(0, 8)`), the two filenames coincide. -/
theorem generateFilename_collision :
    ¬ ∀ u1 u2 : String,
      generateFilename "a cat" (some "sprite") u1 ≠
        generateFilename "a cat" (some "sprite") u2 :=
  fun h => h "123e4567-aaaa" "123e4567-aaaa" rfl

/-- C8 amended: two calls with identical query and format produce
distinct filenames whenever the first 8 characters of their generated
unique identifiers differ. -/
theorem generateFilename_ne_of_uuid_prefix_ne (q : String)
    (f : Option String) (u1 u2 : String)
    (h : u1.data.take 8 ≠ u2.data.take 8) :
    generateFilename q f u1 ≠ generateFilename q f u2 := by
  intro heq
  apply h
  have hl : generateFilenameList q f u1 = generateFilenameList q f u2 :=
    congrArg String.data heq
  unfold generateFilenameList at hl
  simp only [List.append_assoc, List.cons_append] at hl
  have h2 := List.append_cancel_left hl
  injection h2 with _ h3
  have h4 := List.append_cancel_left h3
  injection h4 with _ h5
  exact List.append_cancel_right h5

/-- C8 amended witness: the theorem instantiated at two identifiers with
different 8-character prefixes. -/
theorem generateFilename_ne_of_uuid_prefix_ne_witness :
    ("123e4567-aaaa" : String).data.take 8 ≠
      ("ffffffff-aaaa" : String).data.take 8 ∧
    generateFilename "a cat" (some "sprite") "123e4567-aaaa" ≠
      generateFilename "a cat" (some "sprite") "ffffffff-aaaa" :=
  ⟨by decide,
    generateFilename_ne_of_uuid_prefix_ne "a cat" (some "sprite")
      "123e4567-aaaa" "ffffffff-aaaa" (by decide)⟩

/-- C2: for the `stability` and `replicate` providers, generation
succeeds, performs no outbound network call, and writes exactly the fixed
placeholder bytes for the requested transparency; the transparent and
opaque placeholders are distinct byte sequences, each a 1×1 PNG. -/
theorem placeholder_for_unimplemented_providers
    (storagePath uuid : String) (oracle : Oracle) (p : GenParams)
    (h : p.provider = "stability" ∨ p.provider = "replicate") :
    generateImage storagePath uuid oracle p =
      (Except.ok (mkResult
          (joinPath storagePath (generateFilename p.query p.format uuid))
          (generateFilename p.query p.format uuid) p),
        [Effect.fileWrite
          (joinPath storagePath (generateFilename p.query p.format uuid))
          (getPlaceholderImageData p.transparent)]) ∧
    (∀ url, Effect.netCall url ∉ (generateImage storagePath uuid oracle p).2) ∧
    getPlaceholderImageData true ≠ getPlaceholderImageData false ∧
    isPng1x1 (getPlaceholderImageData true) = true ∧
    isPng1x1 (getPlaceholderImageData false) = true := by
  have hp : ¬ p.provider = "openai" := by
    rcases h with h | h <;> rw [h] <;> decide
  have hmain : generateImage storagePath uuid oracle p =
      (Except.ok (mkResult
          (joinPath storagePath (generateFilename p.query p.format uuid))
          (generateFilename p.query p.format uuid) p),
        [Effect.fileWrite
          (joinPath storagePath (generateFilename p.query p.format uuid))
          (getPlaceholderImageData p.transparent)]) := by
    unfold generateImage
    rw [if_neg hp]
  refine ⟨hmain, ?_, by decide, by decide, by decide⟩
  intro url
  rw [hmain]
  simp

/-- C2 witness: the theorem instantiated with the `stability` provider
and an opaque request. -/
theorem placeholder_for_unimplemented_providers_witness :
    (stabilityParams.provider = "stability" ∨
      stabilityParams.provider = "replicate") ∧
    generateImage "./generated-assets" "123e4567-e89b" trivialOracle
        stabilityParams =
      (Except.ok (mkResult
          (joinPath "./generated-assets"
            (generateFilename "a cat" (some "sprite") "123e4567-e89b"))
          (generateFilename "a cat" (some "sprite") "123e4567-e89b")
          stabilityParams),
        [Effect.fileWrite
          (joinPath "./generated-assets"
            (generateFilename "a cat" (some "sprite") "123e4567-e89b"))
          (getPlaceholderImageData false)]) :=
  ⟨Or.inl rfl,
    (placeholder_for_unimplemented_providers "./generated-assets"
      "123e4567-e89b" trivialOracle stabilityParams (Or.inl rfl)).1⟩

/-- C4: the OpenAI call maps upstream status 401 to the invalid-key
error, 429 to the provider-rate-limited error, 400 to a bad-request error
carrying the upstream detail, any other status to a generic provider
error carrying status and detail; and when the call succeeds with an
empty result list, generation fails with the no-image-returned error. -/
theorem openai_error_mapping :
    (∀ d, callOpenAIImageAPI (.httpError 401 d) = .error .invalidApiKey) ∧
    (∀ d, callOpenAIImageAPI (.httpError 429 d) = .error .providerRateLimited) ∧
    (∀ d, callOpenAIImageAPI (.httpError 400 d) =
      .error (.badRequest (d.getD "Unknown error"))) ∧
    (∀ s d, s ≠ 401 → s ≠ 429 → s ≠ 400 →
      callOpenAIImageAPI (.httpError s d) =
        .error (.providerError s (d.getD "Unknown error"))) ∧
    (∀ (storagePath uuid : String) (oracle : Oracle) (p : GenParams),
      p.provider = "openai" → oracle.apiResp = .success [] →
      (generateImage storagePath uuid oracle p).1 =
        .error .noImageReturned) := by
  refine ⟨fun d => rfl, fun d => rfl, fun d => rfl, ?_, ?_⟩
  · intro s d h1 h2 h3
    simp only [callOpenAIImageAPI]
    rw [if_neg h1, if_neg h2, if_neg h3]
  · intro storagePath uuid oracle p hp hr
    unfold generateImage
    rw [if_pos hp, hr]
    rfl

/-- C4 witness: the mapping instantiated at each status and at a concrete
empty-result environment. -/
theorem openai_error_mapping_witness :
    callOpenAIImageAPI (.httpError 401 (some "x")) =
      .error .invalidApiKey ∧
    callOpenAIImageAPI (.httpError 429 (some "x")) =
      .error .providerRateLimited ∧
    callOpenAIImageAPI (.httpError 400 (some "x")) =
      .error (.badRequest "x") ∧
    callOpenAIImageAPI (.httpError 503 none) =
      .error (.providerError 503 "Unknown error") ∧
    (generateImage "./generated-assets" "u" trivialOracle openaiParams).1 =
      .error .noImageReturned :=
  ⟨openai_error_mapping.1 (some "x"),
    openai_error_mapping.2.1 (some "x"),
    openai_error_mapping.2.2.1 (some "x"),
    openai_error_mapping.2.2.2.1 503 none (by decide) (by decide) (by decide),
    openai_error_mapping.2.2.2.2 "./generated-assets" "u" trivialOracle
      openaiParams rfl rfl⟩

/-- C6: when the configuration file is absent or malformed, the loaded
configuration is exactly the record with provider `"openai"`, a null api
key and storage path `"./generated-assets"`; on that record the default
provider is `"openai"` and the default api key is null for every
provider. -/
theorem config_fallback :
    loadConfig .absent = fallbackConfig ∧
    loadConfig .malformed = fallbackConfig ∧
    fallbackConfig =
      StoredConfig.mk (some "openai") none (some "./generated-assets") ∧
    getDefaultProvider fallbackConfig = "openai" ∧
    (∀ p : String, getDefaultApiKey fallbackConfig p = none) := by
  refine ⟨rfl, rfl, rfl, rfl, ?_⟩
  intro p
  unfold getDefaultApiKey
  split <;> rfl

/-- C3: the validator is the first failure of the six rules applied in
the fixed order query, type, format, api key, provider, transparent; in
particular a body with no api key and no resolvable default fails with
the missing-api-key error even when its provider is also outside the
allowed enumeration, and the pipeline then performs no network call and
writes no file. -/
theorem validation_first_failure :
    (∀ (cfg : StoredConfig) (b : RequestBody),
      validateGenerateRequest cfg b = firstFailure (ruleChecks cfg b)) ∧
    (∀ (cfg : StoredConfig) (b : RequestBody) (sp uuid : String)
        (oracle : Oracle),
      strTruthy b.api_key = false →
      strTruthy (getDefaultApiKey cfg (effectiveProvider cfg b)) = false →
      strTruthy b.query = true →
      b.type = some "image" →
      formatGuardFails b.format = false →
      providerGuardFails b.provider = true →
      validateGenerateRequest cfg b = some .missingApiKey ∧
      handleGenerate cfg sp uuid oracle b =
        (.validationFailure .missingApiKey, [])) := by
  constructor
  · intro cfg b
    simp only [validateGenerateRequest, ruleChecks, queryRule, typeRule,
      formatRule, apiKeyRule, providerRule, transparentRule]
    split_ifs <;> simp [firstFailure]
  · intro cfg b sp uuid oracle hkey hdef hq ht hf hp
    have hv : validateGenerateRequest cfg b = some .missingApiKey := by
      simp [validateGenerateRequest, hkey, hdef, hq, ht, hf]
      decide
    refine ⟨hv, ?_⟩
    unfold handleGenerate
    rw [hv]

/-- C3 witness: a body with no api key and provider `"bogus"` against the
fallback configuration fails with the missing-api-key error and produces
no effects. -/
theorem validation_first_failure_witness :
    validateGenerateRequest fallbackConfig noKeyBadProviderBody =
      some .missingApiKey ∧
    handleGenerate fallbackConfig "./generated-assets" "u" trivialOracle
      noKeyBadProviderBody = (.validationFailure .missingApiKey, []) :=
  validation_first_failure.2 fallbackConfig noKeyBadProviderBody
    "./generated-assets" "u" trivialOracle (by decide) (by decide)
    (by decide) (by decide) (by decide) (by decide)

theorem generateImage_ok_shape (sp uuid : String) (oracle : Oracle)
    (p : GenParams) (r : GenResult)
    (h : (generateImage sp uuid oracle p).1 = Except.ok r) :
    r = mkResult (joinPath sp (generateFilename p.query p.format uuid))
      (generateFilename p.query p.format uuid) p := by
  simp only [generateImage] at h
  split at h
  · split at h
    · simp at h
    · simp at h
    · split at h
      · simp at h
      · simp only [Except.ok.injEq] at h
        exact h.symm
  · simp only [Except.ok.injEq] at h
    exact h.symm

/-- C5 counterexample: the claim's success shape fails when the request's
style is the empty string — the code returns `"default"` where the claim,
which falls back only when the style is absent, requires the request's
style verbatim. -/
theorem success_meta_style_counterexample :
    ¬ ∀ (sp uuid : String) (oracle : Oracle) (p : GenParams) (r : GenResult),
      (generateImage sp uuid oracle p).1 = Except.ok r →
      r.meta.style = claimStyle p.style := by
  intro h
  have h2 := h "./generated-assets" "u" trivialOracle emptyStyleParams
    (mkResult (joinPath "./generated-assets" (generateFilename "a cat" none "u"))
      (generateFilename "a cat" none "u") emptyStyleParams) rfl
  exact absurd h2 (by decide)

/-- C5 amended: every successful generation returns exactly the success
record with the joined file path, the fixed png format and dimensions,
the request's transparency (defaulted to true when omitted), the
request's query verbatim, and the request's style, with `"default"`
substituted when the style is absent or the empty string. -/
theorem success_result_shape (cfg : StoredConfig) (sp uuid : String)
    (oracle : Oracle) (query : String)
    (type format style api_key provider : Option String)
    (transparent : Option Bool) (r : GenResult)
    (h : (generateAsset cfg sp uuid oracle query type format style api_key
        provider transparent).1 = Except.ok r) :
    r = GenResult.mk "success"
      (joinPath sp (generateFilename query format uuid))
      (generateFilename query format uuid)
      (GenMeta.mk "png" (styleOrDefault style) "256x256"
        (transparent.getD true) query) := by
  simp only [generateAsset] at h
  split at h
  · exact absurd h (by simp)
  · split at h
    · have h2 := generateImage_ok_shape sp uuid oracle
        (GenParams.mk query format style
          (jsOrOptStr api_key
            (getDefaultApiKey cfg (jsOrStr provider (getDefaultProvider cfg))))
          (jsOrStr provider (getDefaultProvider cfg)) (transparent.getD true))
        r h
      rw [h2]
      rfl
    · exact absurd h (by simp)

/-- C5 amended witness: a concrete successful generation with an
empty-string style against the `stability` provider. -/
theorem success_result_shape_witness :
    (generateAsset fallbackConfig "./generated-assets" "u" trivialOracle
      "a cat" (some "image") none (some "") (some "k") (some "stability")
      (some true)).1 =
      Except.ok (GenResult.mk "success"
        (joinPath "./generated-assets" (generateFilename "a cat" none "u"))
        (generateFilename "a cat" none "u")
        (GenMeta.mk "png" "default" "256x256" true "a cat")) ∧
    GenResult.mk "success"
        (joinPath "./generated-assets" (generateFilename "a cat" none "u"))
        (generateFilename "a cat" none "u")
        (GenMeta.mk "png" "default" "256x256" true "a cat") =
      GenResult.mk "success"
        (joinPath "./generated-assets" (generateFilename "a cat" none "u"))
        (generateFilename "a cat" none "u")
        (GenMeta.mk "png" (styleOrDefault (some "")) "256x256"
          ((some true).getD true) "a cat") :=
  ⟨rfl,
    success_result_shape fallbackConfig "./generated-assets" "u"
      trivialOracle "a cat" (some "image") none (some "") (some "k")
      (some "stability") (some true)
      (GenResult.mk "success"
        (joinPath "./generated-assets" (generateFilename "a cat" none "u"))
        (generateFilename "a cat" none "u")
        (GenMeta.mk "png" "default" "256x256" true "a cat")) rfl⟩

theorem processRequests_spec (W maxReq : Nat) : ∀ (ts : List Nat) (c0 w0 : Nat),
    (∀ t ∈ ts, t - w0 < W) →
    processRequests W maxReq ts (RateState.mk c0 w0) =
      ((List.range ts.length).map (fun i => decide (c0 + i + 1 ≤ maxReq)),
        RateState.mk (c0 + ts.length) w0)
  | [], c0, w0, _ => by simp [processRequests]
  | t :: ts, c0, w0, h => by
    have ht : t - w0 < W := h t (List.mem_cons_self t ts)
    have hstep : rateLimitStep W maxReq t (RateState.mk c0 w0) =
        (decide (c0 + 1 ≤ maxReq), RateState.mk (c0 + 1) w0) := by
      simp only [rateLimitStep]
      rw [if_neg (by omega)]
    have ih := processRequests_spec W maxReq ts (c0 + 1) w0
      (fun x hx => h x (List.mem_cons_of_mem t hx))
    simp only [processRequests, hstep, ih, List.length_cons,
      List.range_succ_eq_map, List.map_cons, List.map_map, Prod.mk.injEq,
      List.cons.injEq, RateState.mk.injEq]
    refine ⟨⟨by simp, ?_⟩, by omega, trivial⟩
    refine List.map_congr_left fun i _ => ?_
    simp only [Function.comp]
    rw [decide_eq_decide]
    omega

/-- C9: under the fixed-window limiter, a run of `maxReq + 1` requests
arriving within a single window has its last request rejected; a rejected
request gets the rate-limited response with no effects, whatever the
body, so validation never runs on it; and a request arriving at least `W`
after the window start is allowed even when the previous window's quota
was exhausted. -/
theorem rate_limiter_window (W maxReq : Nat) (hmax : 1 ≤ maxReq) :
    (∀ (ts : List Nat) (w0 : Nat), ts.length = maxReq + 1 →
      (∀ t ∈ ts, t - w0 < W) →
      (processRequests W maxReq ts (RateState.mk 0 w0)).1.getLast? =
        some false) ∧
    (∀ (now : Nat) (st : RateState) (cfg : StoredConfig) (sp uuid : String)
        (oracle : Oracle) (b : RequestBody),
      (rateLimitStep W maxReq now st).1 = false →
      handleRequest W maxReq now st cfg sp uuid oracle b =
        (.rateLimited, [], (rateLimitStep W maxReq now st).2)) ∧
    (∀ (now : Nat) (st : RateState), W ≤ now - st.windowStart →
      (rateLimitStep W maxReq now st).1 = true) := by
  refine ⟨?_, ?_, ?_⟩
  · intro ts w0 hlen h
    rw [processRequests_spec W maxReq ts 0 w0 h]
    simp only [hlen, List.range_succ, List.map_append, List.map_cons,
      List.map_nil, List.getLast?_concat]
    have : ¬ (0 + maxReq + 1 ≤ maxReq) := by omega
    simp [this]
  · intro now st cfg sp uuid oracle b hrej
    simp [handleRequest, hrej]
  · intro now st hreset
    unfold rateLimitStep
    rw [if_pos hreset]
    simpa using hmax

/-- C9 witness: with a window of 60000 ms and a limit of 10, eleven
requests at time 0 end in a rejection, and a request a full window later
is allowed although the counter is exhausted. -/
theorem rate_limiter_window_witness :
    (1 ≤ 10) ∧
    (processRequests 60000 10 [0, 0, 0, 0, 0, 0, 0, 0, 0, 0, 0]
      (RateState.mk 0 0)).1.getLast? = some false ∧
    (rateLimitStep 60000 10 60000 (RateState.mk 11 0)).1 = true :=
  ⟨by decide,
    (rate_limiter_window 60000 10 (by decide)).1
      [0, 0, 0, 0, 0, 0, 0, 0, 0, 0, 0] 0 rfl (by decide),
    (rate_limiter_window 60000 10 (by decide)).2.2 60000 (RateState.mk 11 0)
      (by decide)⟩

/-- C10: the default api key is returned only for the provider strictly
equal to the configured one and is null for every other provider; hence a
valid body naming a different provider and carrying no key of its own
fails validation with the missing-api-key error even though a key is
configured. -/
theorem default_key_only_for_configured_provider :
    (∀ (cfg : StoredConfig) (p : String), cfg.provider = some p →
      getDefaultApiKey cfg p = cfg.apiKey) ∧
    (∀ (cfg : StoredConfig) (p : String), cfg.provider ≠ some p →
      getDefaultApiKey cfg p = none) ∧
    (∀ (cfg : StoredConfig) (b : RequestBody) (p : String),
      strTruthy cfg.apiKey = true →
      b.provider = some p → p ≠ "" →
      cfg.provider ≠ some p →
      b.api_key = none →
      strTruthy b.query = true →
      b.type = some "image" →
      formatGuardFails b.format = false →
      validateGenerateRequest cfg b = some .missingApiKey) := by
  refine ⟨?_, ?_, ?_⟩
  · intro cfg p h
    unfold getDefaultApiKey
    rw [if_pos h]
  · intro cfg p h
    unfold getDefaultApiKey
    rw [if_neg h]
  · intro cfg b p hconf hbp hpne hne hkey hq ht hf
    have hep : effectiveProvider cfg b = p := by
      simp [effectiveProvider, hbp, hpne]
    have hdef : getDefaultApiKey cfg (effectiveProvider cfg b) = none := by
      rw [hep]
      unfold getDefaultApiKey
      rw [if_neg hne]
    have h1 : strTruthy (some "image") = true := by decide
    have h2 : strTruthy (none : Option String) = false := by decide
    simp [validateGenerateRequest, hq, ht, hf, hkey, hdef, h1, h2]

/-- C10 witness: a key configured for `openai` does not satisfy a body
naming `stability` without its own key. -/
theorem default_key_only_for_configured_provider_witness :
    strTruthy openaiKeyedConfig.apiKey = true ∧
    validateGenerateRequest openaiKeyedConfig mismatchBody =
      some .missingApiKey :=
  ⟨by decide,
    default_key_only_for_configured_provider.2.2 openaiKeyedConfig
      mismatchBody "stability" (by decide) rfl (by decide) (by decide) rfl
      (by decide) rfl (by decide)⟩

end AssetGen




